import Mathlib

/-!
Verification development for the CUGAr-SALES orchestration core.

Shallow embedding of:
- `src/cuga/orchestrator/failures.py` (failure taxonomy, retry policies, retry executor)
- `src/cuga/orchestrator/intelligent_planner.py` (rule-based fallback planner)
- `demo_production.py` (`ProductionDemo.execute_plan_manual`, the step-execution loop)

Python dictionaries of JSON-like values are embedded as association lists over
an inductive `Value` type; machine floats are embedded as rationals; the
external nondeterminism (uuid generation, approval wait clock, random jitter
draws) is factored out into explicit parameters.
-/

namespace Cuga

/-- JSON-like values stored in step inputs / tool outputs (Python dicts). -/
inductive Value where
  | vnull : Value
  | vbool : Bool → Value
  | vnum : ℚ → Value
  | vstr : String → Value
  | vlist : List Value → Value
  | vobj : List (String × Value) → Value

/-- A Python `dict[str, Value]` as an association list (insertion ordered). -/
abbrev Dict := List (String × Value)

/-- Python `d.get(k)` (first binding wins, as in a Python dict with unique keys). -/
def dictGet (d : Dict) (k : String) : Option Value :=
  d.lookup k

/-- Python `d[k] = v`: replace the binding in place if present, else append. -/
def dictSet (d : Dict) (k : String) (v : Value) : Dict :=
  if (d.lookup k).isSome then
    d.map (fun p => if p.1 = k then (k, v) else p)
  else
    d ++ [(k, v)]

/-- Whether `pat` occurs at the head of `text`. -/
def headMatch : List Char → List Char → Bool
  | [], _ => true
  | _ :: _, [] => false
  | p :: ps, t :: ts => p = t && headMatch ps ts

/-- Whether `pat` occurs somewhere in `text`. -/
def subMatch (pat : List Char) : List Char → Bool
  | [] => headMatch pat []
  | t :: ts => headMatch pat (t :: ts) || subMatch pat ts

/-- Python `pat in s` substring test. -/
def strContains (s pat : String) : Bool :=
  subMatch pat.data s.data

/-- Python `s.lower()` (ASCII lowering, as used on exception text). -/
def lowerStr (s : String) : String :=
  ⟨s.data.map Char.toLower⟩

/-! ## Failure taxonomy (`src/cuga/orchestrator/failures.py`) -/

/-- The `FailureCategory` enum. -/
inductive FailureCategory where
  | AGENT | SYSTEM | RESOURCE | POLICY | USER
  deriving DecidableEq

/-- The `FailureSeverity` enum. -/
inductive FailureSeverity where
  | LOW | MEDIUM | HIGH | CRITICAL
  deriving DecidableEq

/-- The `FailureMode` enum members. -/
inductive FailureMode where
  | AGENT_VALIDATION | AGENT_TIMEOUT | AGENT_LOGIC | AGENT_CONTRACT | AGENT_STATE
  | SYSTEM_NETWORK | SYSTEM_TIMEOUT | SYSTEM_CRASH | SYSTEM_OOM | SYSTEM_DISK
  | RESOURCE_TOOL_UNAVAILABLE | RESOURCE_API_UNAVAILABLE | RESOURCE_MEMORY_FULL
  | RESOURCE_QUOTA | RESOURCE_CIRCUIT_OPEN
  | POLICY_SECURITY | POLICY_BUDGET | POLICY_ALLOWLIST | POLICY_RATE_LIMIT
  | USER_INVALID_INPUT | USER_CANCELLED | USER_PERMISSION
  | PARTIAL_TOOL_FAILURES | PARTIAL_STEP_FAILURES | PARTIAL_TIMEOUT
  deriving DecidableEq

namespace FailureMode

/-- The string value of each `FailureMode` enum member. -/
def value : FailureMode → String
  | AGENT_VALIDATION => "agent_validation"
  | AGENT_TIMEOUT => "agent_timeout"
  | AGENT_LOGIC => "agent_logic"
  | AGENT_CONTRACT => "agent_contract"
  | AGENT_STATE => "agent_state"
  | SYSTEM_NETWORK => "system_network"
  | SYSTEM_TIMEOUT => "system_timeout"
  | SYSTEM_CRASH => "system_crash"
  | SYSTEM_OOM => "system_oom"
  | SYSTEM_DISK => "system_disk"
  | RESOURCE_TOOL_UNAVAILABLE => "resource_tool"
  | RESOURCE_API_UNAVAILABLE => "resource_api"
  | RESOURCE_MEMORY_FULL => "resource_memory"
  | RESOURCE_QUOTA => "resource_quota"
  | RESOURCE_CIRCUIT_OPEN => "resource_circuit"
  | POLICY_SECURITY => "policy_security"
  | POLICY_BUDGET => "policy_budget"
  | POLICY_ALLOWLIST => "policy_allowlist"
  | POLICY_RATE_LIMIT => "policy_rate_limit"
  | USER_INVALID_INPUT => "user_invalid_input"
  | USER_CANCELLED => "user_cancelled"
  | USER_PERMISSION => "user_permission"
  | PARTIAL_TOOL_FAILURES => "partial_tool_failures"
  | PARTIAL_STEP_FAILURES => "partial_step_failures"
  | PARTIAL_TIMEOUT => "partial_timeout"

/-- Property `FailureMode.category`: derived from the string value's prefix chain. -/
def category (m : FailureMode) : FailureCategory :=
  if m.value.startsWith "agent_" then .AGENT
  else if m.value.startsWith "system_" then .SYSTEM
  else if m.value.startsWith "resource_" then .RESOURCE
  else if m.value.startsWith "policy_" then .POLICY
  else if m.value.startsWith "user_" then .USER
  else if m.value.startsWith "partial_" then .AGENT
  else .SYSTEM

/-- Property `FailureMode.retryable`: fixed membership set. -/
def retryable (m : FailureMode) : Bool :=
  m ∈ [SYSTEM_NETWORK, SYSTEM_TIMEOUT,
       RESOURCE_TOOL_UNAVAILABLE, RESOURCE_API_UNAVAILABLE, RESOURCE_CIRCUIT_OPEN,
       POLICY_RATE_LIMIT, AGENT_TIMEOUT, PARTIAL_TIMEOUT]

/-- Property `FailureMode.terminal`: fixed membership set. -/
def terminal (m : FailureMode) : Bool :=
  m ∈ [POLICY_SECURITY, POLICY_BUDGET, POLICY_ALLOWLIST,
       SYSTEM_CRASH, SYSTEM_OOM, USER_CANCELLED, AGENT_CONTRACT]

/-- Property `FailureMode.severity`. -/
def severity (m : FailureMode) : FailureSeverity :=
  if m.terminal then .CRITICAL
  else if m.category = .SYSTEM then .HIGH
  else if m.category = .RESOURCE ∨ m.category = .POLICY then .MEDIUM
  else .LOW

end FailureMode

/-- A raised Python exception, as seen by the orchestration core: its type
name (`type(exc).__name__`) and its message (`str(exc)`). -/
structure Exc where
  ty : String
  msg : String
  deriving DecidableEq

/-- Method `FailureContext._detect_failure_mode`: ordered keyword match over the
lowercased exception type name and message. -/
def _detect_failure_mode (exc : Exc) : FailureMode :=
  let excType := lowerStr exc.ty
  let excMsg := lowerStr exc.msg
  if strContains excType "timeout" || strContains excMsg "timeout" then
    .SYSTEM_TIMEOUT
  else if strContains excType "network" || strContains excMsg "connection" then
    .SYSTEM_NETWORK
  else if strContains excMsg "memory" || strContains excMsg "oom" then
    .SYSTEM_OOM
  else if strContains excMsg "permission" || strContains excMsg "forbidden" then
    .USER_PERMISSION
  else if strContains excMsg "validation" || strContains excMsg "invalid" then
    .AGENT_VALIDATION
  else if strContains excMsg "rate limit" || strContains excMsg "quota" then
    .POLICY_RATE_LIMIT
  else if strContains excMsg "circuit" then
    .RESOURCE_CIRCUIT_OPEN
  else if strContains excMsg "unavailable" || strContains excMsg "not found" then
    .RESOURCE_TOOL_UNAVAILABLE
  else
    .AGENT_LOGIC

/-- The `FailureContext` record (the fields consumed by the retry executor; the stack
trace, cause and partial result are carried opaquely in the source and are
not observable here). `stage` embeds `LifecycleStage` as its string value. -/
structure FailureContext where
  mode : FailureMode
  stage : String
  message : String
  retry_count : Nat
  operation_name : String
  deriving DecidableEq

/-- Modelled from the spec: `OrchestrationError` lives in
`cuga/orchestrator/protocol.py`, which is absent from the sources; per the
spec the surfaced error carries the full failure context (mode, category,
severity, retry count) plus stage, message and recoverability. -/
structure OrchestrationError where
  stage : String
  message : String
  recoverable : Bool
  failure_mode : String
  category : FailureCategory
  severity : FailureSeverity
  retry_count : Nat
  deriving DecidableEq

/-- Method `FailureContext.to_orchestration_error`. -/
def FailureContext.to_orchestration_error (f : FailureContext) : OrchestrationError :=
  { stage := f.stage
    message := f.message
    recoverable := f.mode.retryable
    failure_mode := f.mode.value
    category := f.mode.category
    severity := f.mode.severity
    retry_count := f.retry_count }

/-- Method `FailureContext.from_exception` with `mode = None` (auto-detection), as
called by the retry executor, which then stamps `retry_count` and
`operation_name`. -/
def FailureContext.from_exception (exc : Exc) (stage : String)
    (retryCount : Nat) (operationName : String) : FailureContext :=
  { mode := _detect_failure_mode exc
    stage := stage
    message := exc.msg
    retry_count := retryCount
    operation_name := operationName }

/-! ## Retry policies and the retry executor (`failures.py`) -/

/-- The `RetryPolicy` abstract interface: `should_retry`, `get_delay`
(seconds, as a rational) and `get_max_attempts`. -/
structure RetryPolicyIface where
  should_retry : FailureContext → Bool
  get_delay : Nat → ℚ
  get_max_attempts : Nat

/-- The `ExponentialBackoffPolicy` fields. -/
structure ExponentialBackoffPolicy where
  base_delay : ℚ := 1
  max_delay : ℚ := 60
  multiplier : ℚ := 2
  jitter : ℚ := 1/10
  max_attempts : Nat := 3
  retryable_modes : Option (List FailureMode) := none
  deriving DecidableEq

namespace ExponentialBackoffPolicy

/-- Method `ExponentialBackoffPolicy.should_retry`. -/
def should_retry (p : ExponentialBackoffPolicy) (failure : FailureContext) : Bool :=
  if failure.retry_count ≥ p.max_attempts then false
  else match p.retryable_modes with
    | some modes => failure.mode ∈ modes
    | none => failure.mode.retryable

/-- The pre-jitter delay `min(base_delay * multiplier ** attempt, max_delay)`
computed on the first line of `get_delay`. -/
def raw_delay (p : ExponentialBackoffPolicy) (attempt : Nat) : ℚ :=
  min (p.base_delay * p.multiplier ^ attempt) p.max_delay

/-- Method `ExponentialBackoffPolicy.get_delay`. The call
`random.uniform(-jitter_amount, jitter_amount)` is embedded as
`jitter_amount * u` for an explicit draw parameter `u ∈ [-1, 1]`. -/
def get_delay (p : ExponentialBackoffPolicy) (u : ℚ) (attempt : Nat) : ℚ :=
  let delay := p.raw_delay attempt
  let delay := if p.jitter > 0 then delay + delay * p.jitter * u else delay
  max 0 delay

end ExponentialBackoffPolicy

/-- One attempt of the operation passed to `RetryExecutor.execute_with_retry`:
the operation is a callable whose `n`-th invocation either returns a value or
raises an exception. -/
abbrev Operation (T : Type) := Nat → Except Exc T

/-- The `while attempt <= self.policy.get_max_attempts()` loop of
`RetryExecutor.execute_with_retry`, with `remaining` counting the loop
iterations still allowed and `last` the `last_failure` variable. Alongside
the outcome it returns the list of positive backoff delays actually slept
(`await asyncio.sleep(delay)`), so that "no sleep happened" is observable. -/
def retryGo {T : Type} (policy : RetryPolicyIface) (stage operationName : String)
    (op : Operation T) :
    Nat → Nat → Option FailureContext → Except OrchestrationError T × List ℚ
  | _, 0, some f => (.error f.to_orchestration_error, [])
  | _, 0, none =>
      (.error { stage := stage, message := "Retry logic failure for " ++ operationName
                recoverable := false, failure_mode := "", category := .SYSTEM
                severity := .LOW, retry_count := 0 }, [])
  | attempt, remaining + 1, _ =>
      match op attempt with
      | .ok v => (.ok v, [])
      | .error exc =>
        let failure := FailureContext.from_exception exc stage attempt operationName
        if failure.mode.terminal then
          (.error failure.to_orchestration_error, [])
        else if ¬ policy.should_retry failure then
          (.error failure.to_orchestration_error, [])
        else
          let delay := policy.get_delay attempt
          let rest := retryGo policy stage operationName op (attempt + 1) remaining (some failure)
          (rest.1, (if delay > 0 then [delay] else []) ++ rest.2)

/-- Method `RetryExecutor.execute_with_retry`: run attempts `0 .. max_attempts`
inclusive; on exhaustion surface the last failure. -/
def execute_with_retry {T : Type} (policy : RetryPolicyIface)
    (stage : String) (op : Operation T) (operationName : String) :
    Except OrchestrationError T × List ℚ :=
  retryGo policy stage operationName op 0 (policy.get_max_attempts + 1) none

/-! ## Plan data model and the rule-based planner
(`cuga/orchestrator/intelligent_planner.py`; the `Plan`/`PlanStep`/`ToolBudget`
dataclasses live in `cuga/orchestrator/planning.py`, absent from the sources,
so their record shapes are modelled from the spec's data-model section.) -/

/-- Modelled from the spec: `ExecutionContext` lives in
`cuga/orchestrator/protocol.py`, absent from the sources; only the
`trace_id` and `profile` fields are read by the planner and the demo
executor. -/
structure ExecutionContext where
  trace_id : String
  profile : String
  deriving DecidableEq

/-- Modelled from the spec: `ToolBudget` (from the absent `planning.py`)
carries the single aggregate cost cap. The planner constructs it as
`ToolBudget(call_ceiling=50)` and `demo_production.py` reads the same cap
back as `plan.budget.cost_ceiling`. -/
structure ToolBudget where
  call_ceiling : ℚ
  deriving DecidableEq

/-- The step metadata mapping: per the spec it MUST contain `domain` and
`side_effect_class` and MAY contain `depends_on`. -/
structure StepMeta where
  domain : String
  side_effect_class : String
  depends_on : Option Nat := none

/-- Modelled from the spec: `PlanStep` (from the absent `planning.py`) —
1-based index, tool name, label, input mapping, reason, estimated cost,
metadata. -/
structure PlanStep where
  index : Nat
  tool : String
  name : String
  input : Dict
  reason : String
  estimated_cost : ℚ
  metadata : StepMeta

/-- The plan-level metadata tags set by the planner. -/
structure PlanMeta where
  llm_generated : Bool
  rule_based : Bool
  deriving DecidableEq

/-- Modelled from the spec: `Plan` (from the absent `planning.py`) —
identifier, goal text, ordered steps, stage, budget, trace id, profile,
metadata. `PlanningStage.CREATED` is embedded as its string value. -/
structure Plan where
  plan_id : String
  goal : String
  steps : List PlanStep
  stage : String
  budget : ToolBudget
  trace_id : String
  profile : String
  metadata : PlanMeta

/-- The prospect-data mapping as read by `_create_rule_based_plan`: every
access goes through `.get(key)` / `.get(key, default)`, so each consulted
key is an optional field. -/
structure ProspectData where
  company : Option String := none
  industry : Option String := none
  employee_count : Option ℚ := none
  revenue : Option ℚ := none
  template : Option String := none
  prospect_data : Option Value := none

/-- A Python optional string rendered as a dict value (`None` ⇒ JSON null). -/
def optStr : Option String → Value
  | some s => .vstr s
  | none => .vnull

/-- A Python optional string rendered into an f-string (`None` prints as
`"None"`). -/
def pyStr : Option String → String
  | some s => s
  | none => "None"

/-- Method `IntelligentPlanner._create_rule_based_plan`. The `uuid.uuid4().hex[:8]`
fragment of the plan id is the explicit parameter `uuidHex`. -/
def _create_rule_based_plan (goal : String) (context : ExecutionContext)
    (prospectData : ProspectData) (uuidHex : String) : Plan :=
  let steps : List PlanStep :=
    [ { index := 1
        tool := "score_account_fit"
        name := "Score Account Fit"
        input :=
          [ ("account", .vobj
              [ ("company", optStr prospectData.company)
              , ("industry", optStr prospectData.industry)
              , ("employee_count", .vnum (prospectData.employee_count.getD 500))
              , ("revenue", .vnum (prospectData.revenue.getD 10000000)) ])
          , ("icp_criteria", .vobj
              [ ("target_industries", .vlist
                  [.vstr "Technology", .vstr "SaaS", .vstr "Financial Services"])
              , ("min_employee_count", .vnum 100)
              , ("min_revenue", .vnum 1000000) ]) ]
        reason := "Score account against ICP to prioritize outreach"
        estimated_cost := 1/2
        metadata := { domain := "intelligence", side_effect_class := "read-only" } }
    , { index := 2
        tool := "draft_outbound_message"
        name := "Draft Outreach Message"
        input :=
          [ ("template", optStr prospectData.template)
          , ("prospect_data", prospectData.prospect_data.getD .vnull)
          , ("channel", .vstr "email")
          , ("tone", .vstr "professional") ]
        reason := "Draft personalized outreach message"
        estimated_cost := 1
        metadata := { domain := "engagement", side_effect_class := "propose" } }
    , { index := 3
        tool := "assess_message_quality"
        name := "Assess Message Quality"
        input :=
          [ ("message", .vstr "")
          , ("subject", .vstr "")
          , ("channel", .vstr "email") ]
        reason := "Validate message quality before proposing to human"
        estimated_cost := 1/2
        metadata := { domain := "engagement", side_effect_class := "read-only"
                      depends_on := some 2 } }
    , { index := 4
        tool := "qualify_opportunity"
        name := "Qualify Opportunity"
        input :=
          [ ("opportunity_id", .vstr
              ("opp-" ++ ((prospectData.company.getD "unknown").toLower.replace " " "-")))
          , ("criteria", .vobj
              [ ("budget", .vbool true)
              , ("authority", .vbool false)
              , ("need", .vbool true)
              , ("timing", .vbool true) ])
          , ("notes", .vstr ("Initial qualification for " ++ pyStr prospectData.company)) ]
        reason := "Assess opportunity quality for prioritization"
        estimated_cost := 7/10
        metadata := { domain := "qualification", side_effect_class := "read-only" } } ]
  { plan_id := "plan-" ++ uuidHex
    goal := goal
    steps := steps
    stage := "created"
    budget := { call_ceiling := 50 }
    trace_id := context.trace_id
    profile := context.profile
    metadata := { llm_generated := false, rule_based := true } }

/-! ## The demo execution loop (`demo_production.py`,
`ProductionDemo.execute_plan_manual`) -/

/-- The `tool_context` dict passed to every tool. -/
structure ToolCtx where
  trace_id : String
  profile : String
  deriving DecidableEq

/-- The four sales tools dispatched by name in `execute_plan_manual`. They
live outside the orchestration core (external collaborators per the spec):
each takes the resolved input and the tool context and either returns an
output mapping or raises. -/
structure Tools where
  score_account_fit : Dict → ToolCtx → Except Exc Dict
  draft_outbound_message : Dict → ToolCtx → Except Exc Dict
  assess_message_quality : Dict → ToolCtx → Except Exc Dict
  qualify_opportunity : Dict → ToolCtx → Except Exc Dict

/-- An entry of the `approval_requests` list: the auto-approval response
dict built in the demo path. -/
structure ApprovalRecord where
  request_id : String
  status : String
  approver : String
  reason : String
  wait_time : ℚ
  deriving DecidableEq

/-- One entry of the `results` list, with the exact key set the source
writes for each status. The `budgetExceeded` constructor carries the two
numbers the source formats into its `reason` string, and the `error`
constructor carries `str(e)`; note the source's error record has no
`domain` key. -/
inductive StepRecord where
  | budgetExceeded (step_id : Nat) (tool : String) (domain : String)
      (usedAtSkip limitAtSkip : ℚ)
  | approvalDenied (step_id : Nat) (tool : String) (domain : String) (reason : String)
  | success (step_id : Nat) (tool : String) (domain : String) (output : Dict)
      (approval_required : Bool) (approval_wait_time : ℚ)
  | error (step_id : Nat) (tool : String) (message : String)

/-- The `"status"` value of a result record. -/
def StepRecord.status : StepRecord → String
  | .budgetExceeded .. => "budget_exceeded"
  | .approvalDenied .. => "approval_denied"
  | .success .. => "success"
  | .error .. => "error"

/-- The `budget_used` dict: `{"total": 0, "by_domain": {}, "by_tool": {}}`. -/
structure BudgetUsed where
  total : ℚ
  by_domain : List (String × ℚ)
  by_tool : List (String × ℚ)

/-- Python `d[k] = d.get(k, 0) + c` on a numeric dict. -/
def bump (d : List (String × ℚ)) (k : String) (c : ℚ) : List (String × ℚ) :=
  if (d.lookup k).isSome then
    d.map (fun p => if p.1 = k then (k, p.2 + c) else p)
  else
    d ++ [(k, ((d.lookup k).getD 0) + c)]

/-- The loop state of `execute_plan_manual`: `results`, the `step_outputs`
dict (whose only key ever written or read is `2`, so it is kept as the
optional stored output), the `budget_used` dict, and the approval log. -/
structure ExecState where
  results : List StepRecord
  stepOutputs2 : Option Dict
  budget_used : BudgetUsed
  approval_requests : List ApprovalRecord
  total_approval_time : ℚ

/-- The initial loop state. -/
def initState : ExecState :=
  { results := [], stepOutputs2 := none
    budget_used := { total := 0, by_domain := [], by_tool := [] }
    approval_requests := [], total_approval_time := 0 }

/-- Python `d[k]`: mapping subscript, raising `KeyError` when absent
(`str(KeyError(k))` is the quoted key). -/
def dictGetExc (d : Dict) (k : String) : Except Exc Value :=
  match d.lookup k with
  | some v => .ok v
  | none => .error { ty := "KeyError", msg := "\x27" ++ k ++ "\x27" }

/-- The tool dispatch inside the `try` block of `execute_plan_manual`:
returns the tool output together with the new stored step-2 output. Only
`draft_outbound_message` stores its output, and only
`assess_message_quality` splices the stored output (keys `message_draft`
and `subject`) into its input — the branch tests are on the tool name, and
the stored slot is the literal index 2. -/
def dispatch (tools : Tools) (toolCtx : ToolCtx) (stepOutputs2 : Option Dict)
    (tool : String) (input : Dict) : Except Exc (Dict × Option Dict) :=
  if tool = "score_account_fit" then
    (tools.score_account_fit input toolCtx).map (fun o => (o, stepOutputs2))
  else if tool = "draft_outbound_message" then
    (tools.draft_outbound_message input toolCtx).map (fun o => (o, some o))
  else if tool = "assess_message_quality" then
    match stepOutputs2 with
    | some out => do
        let m ← dictGetExc out "message_draft"
        let s ← dictGetExc out "subject"
        let input := dictSet (dictSet input "message" m) "subject" s
        (tools.assess_message_quality input toolCtx).map (fun o => (o, stepOutputs2))
    | none =>
        (tools.assess_message_quality input toolCtx).map (fun o => (o, stepOutputs2))
  else if tool = "qualify_opportunity" then
    (tools.qualify_opportunity input toolCtx).map (fun o => (o, stepOutputs2))
  else
    .ok ([("error", .vstr ("Unknown tool: " ++ tool))], stepOutputs2)

/-- The externally supplied parameters of one `execute_plan_manual` run:
the tool implementations, the measured human-approval wait
(`time.time() - approval_start`, one demo value per run), and the
generated approval request ids (indexed by how many requests were created
before). -/
structure DemoEnv where
  tools : Tools
  approval_wait : ℚ
  request_ids : Nat → String

/-- The approval block for a step requiring approval: create the request,
wait, auto-approve, and log the response. -/
def approveStep (env : DemoEnv) (st : ExecState) : ExecState × ApprovalRecord :=
  let resp : ApprovalRecord :=
    { request_id := env.request_ids st.approval_requests.length
      status := "approved"
      approver := "demo_user"
      reason := "Demo auto-approval after review"
      wait_time := env.approval_wait }
  ({ st with approval_requests := st.approval_requests ++ [resp]
             total_approval_time := st.total_approval_time + resp.wait_time }, resp)

/-- The test `requires_approval = step.metadata.get("side_effect_class") in
["propose", "execute"]`. -/
def requires_approval (step : PlanStep) : Bool :=
  step.metadata.side_effect_class = "propose" ∨
  step.metadata.side_effect_class = "execute"

/-- The `if requires_approval:` block result: the loop state after the
approval bookkeeping, and the approval response (if one was created; in
the demo path every created request is auto-approved). -/
def approvalPhase (env : DemoEnv) (st : ExecState) (step : PlanStep) :
    ExecState × Option ApprovalRecord :=
  if requires_approval step then
    let pr := approveStep env st
    (pr.1, some pr.2)
  else (st, none)

/-- One iteration of the `for step in plan.steps` loop. The only statement
that can raise out of the loop is the 80 %-threshold division
`budget_used["total"] / budget_limit`, which in Python raises
`ZeroDivisionError` when `budget_limit` is zero; every tool exception is
caught and recorded. -/
def execStep (env : DemoEnv) (toolCtx : ToolCtx) (budgetLimit : ℚ)
    (st : ExecState) (step : PlanStep) : Except String ExecState :=
  if st.budget_used.total + step.estimated_cost > budgetLimit then
    .ok { st with results := st.results ++
            [.budgetExceeded step.index step.tool step.metadata.domain
               st.budget_used.total budgetLimit] }
  else if budgetLimit = 0 then
    .error "ZeroDivisionError"
  else
    let st₁ := (approvalPhase env st step).1
    let approvalResponse := (approvalPhase env st step).2
    if approvalResponse.any (fun resp => resp.status != "approved") then
      .ok { st₁ with results := st₁.results ++
              [.approvalDenied step.index step.tool step.metadata.domain
                 ((approvalResponse.map (fun resp => resp.reason)).getD
                   "Approval not granted")] }
    else
      match dispatch env.tools toolCtx st₁.stepOutputs2 step.tool step.input with
      | .error e =>
          .ok { st₁ with results := st₁.results ++ [.error step.index step.tool e.msg] }
      | .ok (output, stepOutputs2) =>
          .ok { st₁ with
                stepOutputs2 := stepOutputs2
                results := st₁.results ++
                  [.success step.index step.tool step.metadata.domain output
                     (requires_approval step)
                     ((approvalResponse.map (fun resp => resp.wait_time)).getD 0)]
                budget_used :=
                  { total := st₁.budget_used.total + step.estimated_cost
                    by_domain := bump st₁.budget_used.by_domain step.metadata.domain
                      step.estimated_cost
                    by_tool := bump st₁.budget_used.by_tool step.tool
                      step.estimated_cost } }

/-- The whole step loop. -/
def execSteps (env : DemoEnv) (toolCtx : ToolCtx) (budgetLimit : ℚ)
    (st : ExecState) : List PlanStep → Except String ExecState
  | [] => .ok st
  | step :: rest => do
      execSteps env toolCtx budgetLimit (← execStep env toolCtx budgetLimit st step) rest

/-- The structured result dict returned by `execute_plan_manual`. -/
structure FinalResult where
  success : Bool
  results : List StepRecord
  trace_id : String
  budget_utilization : BudgetUsed
  budget_limit : ℚ
  budget_exceeded : Bool
  approval_requests : List ApprovalRecord
  total_approval_time : ℚ

/-- Method `ProductionDemo.execute_plan_manual`. -/
def execute_plan_manual (env : DemoEnv) (plan : Plan) (context : ExecutionContext) :
    Except String FinalResult := do
  let budgetLimit := plan.budget.call_ceiling
  let toolCtx : ToolCtx := { trace_id := context.trace_id, profile := context.profile }
  let st ← execSteps env toolCtx budgetLimit initState plan.steps
  pure
    { success := st.results.all (fun r => r.status = "success")
      results := st.results
      trace_id := context.trace_id
      budget_utilization := st.budget_used
      budget_limit := budgetLimit
      budget_exceeded := st.budget_used.total > budgetLimit
      approval_requests := st.approval_requests
      total_approval_time := st.total_approval_time }

/-! ## Concrete fixtures (tool doubles and small plans used to evaluate the
executor on closed inputs) -/

/-- Tool doubles that always raise the given exception. -/
def throwingTools (exc : Exc) : Tools :=
  { score_account_fit := fun _ _ => .error exc
    draft_outbound_message := fun _ _ => .error exc
    assess_message_quality := fun _ _ => .error exc
    qualify_opportunity := fun _ _ => .error exc }

/-- Tool doubles that return fixed outputs; the quality tool echoes its
resolved input, making the input it was invoked with observable. -/
def echoTools : Tools :=
  { score_account_fit := fun _ _ => .ok [("x", .vstr "v")]
    draft_outbound_message := fun _ _ =>
      .ok [("message_draft", .vstr "draft body"), ("subject", .vstr "draft subject")]
    assess_message_quality := fun input _ => .ok input
    qualify_opportunity := fun _ _ => .ok [] }

/-- A run environment around the given tool doubles. -/
def mkEnv (tools : Tools) : DemoEnv :=
  { tools := tools, approval_wait := 2
    request_ids := fun n => "approval-" ++ toString n }

/-- A concrete execution context. -/
def demoContext : ExecutionContext := { trace_id := "trace-demo", profile := "demo" }

/-- A concrete read-only scoring step of cost 1. -/
def scoreStep : PlanStep :=
  { index := 1, tool := "score_account_fit", name := "Score Account Fit"
    input := [], reason := "score the account", estimated_cost := 1
    metadata := { domain := "intelligence", side_effect_class := "read-only" } }

/-- A concrete quality-assessment step whose metadata has `depends_on = 1`
and whose input carries a placeholder message. -/
def assessStep : PlanStep :=
  { index := 2, tool := "assess_message_quality", name := "Assess Message Quality"
    input := [("message", .vstr "placeholder")], reason := "assess quality"
    estimated_cost := 1
    metadata := { domain := "engagement", side_effect_class := "read-only"
                  depends_on := some 1 } }

/-- A concrete step of estimated cost 0. -/
def zeroCostStep : PlanStep :=
  { index := 1, tool := "score_account_fit", name := "Score Account Fit"
    input := [], reason := "score the account", estimated_cost := 0
    metadata := { domain := "intelligence", side_effect_class := "read-only" } }

/-- A concrete step naming a tool outside the dispatch table. -/
def unknownToolStep : PlanStep :=
  { index := 1, tool := "mystery_tool", name := "Mystery", input := []
    reason := "unknown", estimated_cost := 1
    metadata := { domain := "ops", side_effect_class := "read-only" } }

/-- A concrete plan around the given steps and cost ceiling. -/
def mkPlan (steps : List PlanStep) (ceiling : ℚ) : Plan :=
  { plan_id := "plan-fixture", goal := "goal", steps := steps, stage := "created"
    budget := { call_ceiling := ceiling }, trace_id := "trace-demo", profile := "demo"
    metadata := { llm_generated := false, rule_based := true } }

/-- The structured result of a one-step run of `scoreStep` (ceiling 50)
whose tool raised with message `msg`. -/
def throwResult (msg : String) : FinalResult :=
  { success := false
    results := [.error 1 "score_account_fit" msg]
    trace_id := "trace-demo"
    budget_utilization := { total := 0, by_domain := [], by_tool := [] }
    budget_limit := 50
    budget_exceeded := decide ((0 : ℚ) > 50)
    approval_requests := []
    total_approval_time := 0 }

/-! ## Theorems -/

/-- The approval phase touches only the approval log: results, stored
step-2 output and budget counters are unchanged. -/
theorem approvalPhase_fields (env : DemoEnv) (st : ExecState) (step : PlanStep) :
    (approvalPhase env st step).1.results = st.results ∧
    (approvalPhase env st step).1.stepOutputs2 = st.stepOutputs2 ∧
    (approvalPhase env st step).1.budget_used = st.budget_used := by
  unfold approvalPhase approveStep
  split <;> exact ⟨rfl, rfl, rfl⟩

/-- C8: rule-based planning is deterministic and idempotent: two calls with
identical goal text, context and prospect data produce plans agreeing on
every comparable field (steps with their order, tools, inputs, costs,
domains and metadata; goal; stage; budget; trace id; profile; plan
metadata), with only the generated plan id differing. -/
theorem C8_rule_based_deterministic (goal : String) (context : ExecutionContext)
    (pd : ProspectData) (uuidHex₁ uuidHex₂ : String) :
    (_create_rule_based_plan goal context pd uuidHex₁).steps =
      (_create_rule_based_plan goal context pd uuidHex₂).steps ∧
    (_create_rule_based_plan goal context pd uuidHex₁).goal =
      (_create_rule_based_plan goal context pd uuidHex₂).goal ∧
    (_create_rule_based_plan goal context pd uuidHex₁).stage =
      (_create_rule_based_plan goal context pd uuidHex₂).stage ∧
    (_create_rule_based_plan goal context pd uuidHex₁).budget =
      (_create_rule_based_plan goal context pd uuidHex₂).budget ∧
    (_create_rule_based_plan goal context pd uuidHex₁).trace_id =
      (_create_rule_based_plan goal context pd uuidHex₂).trace_id ∧
    (_create_rule_based_plan goal context pd uuidHex₁).profile =
      (_create_rule_based_plan goal context pd uuidHex₂).profile ∧
    (_create_rule_based_plan goal context pd uuidHex₁).metadata =
      (_create_rule_based_plan goal context pd uuidHex₂).metadata ∧
    (_create_rule_based_plan goal context pd uuidHex₁).plan_id = "plan-" ++ uuidHex₁ :=
  ⟨rfl, rfl, rfl, rfl, rfl, rfl, rfl, rfl⟩

/-- C9: for the goal "Prioritize and engage prospect" and any prospect data,
the rule-based plan has exactly 4 steps, domains
[intelligence, engagement, engagement, qualification], costs
[0.5, 1.0, 0.5, 0.7], and its third step carries `depends_on = 2` with
empty-string placeholders for its `message` and `subject` inputs. -/
theorem C9_canonical_plan_shape (context : ExecutionContext) (pd : ProspectData)
    (uuidHex : String) :
    (_create_rule_based_plan "Prioritize and engage prospect" context pd uuidHex).steps.length
      = 4 ∧
    (_create_rule_based_plan "Prioritize and engage prospect" context pd uuidHex).steps.map
        (fun s => s.metadata.domain)
      = ["intelligence", "engagement", "engagement", "qualification"] ∧
    (_create_rule_based_plan "Prioritize and engage prospect" context pd uuidHex).steps.map
        (fun s => s.estimated_cost)
      = [1/2, 1, 1/2, 7/10] ∧
    (_create_rule_based_plan "Prioritize and engage prospect" context pd uuidHex).steps.map
        (fun s => s.metadata.depends_on)
      = [none, none, some 2, none] ∧
    (_create_rule_based_plan "Prioritize and engage prospect" context pd uuidHex).steps.map
        (fun s => dictGet s.input "message")
      = [none, none, some (.vstr ""), none] ∧
    (_create_rule_based_plan "Prioritize and engage prospect" context pd uuidHex).steps.map
        (fun s => dictGet s.input "subject")
      = [none, none, some (.vstr ""), none] :=
  ⟨rfl, rfl, rfl, rfl, rfl, rfl⟩

/-- C5: any exception whose lowercased type name or message contains
"timeout" is classified `system_timeout`, never the network or memory mode,
regardless of other keywords; and when none of the detector's keywords
match, detection defaults to `agent_logic`. -/
theorem C5_timeout_first_match :
    (∀ exc : Exc,
      (strContains (lowerStr exc.ty) "timeout" = true ∨
       strContains (lowerStr exc.msg) "timeout" = true) →
      _detect_failure_mode exc = .SYSTEM_TIMEOUT ∧
      _detect_failure_mode exc ≠ .SYSTEM_NETWORK ∧
      _detect_failure_mode exc ≠ .SYSTEM_OOM) ∧
    (∀ exc : Exc,
      strContains (lowerStr exc.ty) "timeout" = false →
      strContains (lowerStr exc.msg) "timeout" = false →
      strContains (lowerStr exc.ty) "network" = false →
      strContains (lowerStr exc.msg) "connection" = false →
      strContains (lowerStr exc.msg) "memory" = false →
      strContains (lowerStr exc.msg) "oom" = false →
      strContains (lowerStr exc.msg) "permission" = false →
      strContains (lowerStr exc.msg) "forbidden" = false →
      strContains (lowerStr exc.msg) "validation" = false →
      strContains (lowerStr exc.msg) "invalid" = false →
      strContains (lowerStr exc.msg) "rate limit" = false →
      strContains (lowerStr exc.msg) "quota" = false →
      strContains (lowerStr exc.msg) "circuit" = false →
      strContains (lowerStr exc.msg) "unavailable" = false →
      strContains (lowerStr exc.msg) "not found" = false →
      _detect_failure_mode exc = .AGENT_LOGIC) := by
  constructor
  · intro exc h
    have hcond : (strContains (lowerStr exc.ty) "timeout" ||
        strContains (lowerStr exc.msg) "timeout") = true := by
      rcases h with h | h <;> simp [h]
    refine ⟨?_, ?_, ?_⟩ <;> simp [_detect_failure_mode, hcond]
  · intro exc h₁ h₂ h₃ h₄ h₅ h₆ h₇ h₈ h₉ h₁₀ h₁₁ h₁₂ h₁₃ h₁₄ h₁₅
    simp [_detect_failure_mode, h₁, h₂, h₃, h₄, h₅, h₆, h₇, h₈, h₉, h₁₀, h₁₁,
      h₁₂, h₁₃, h₁₄, h₁₅]

/-- C5 witness: a message containing "timeout" together with "network",
"connection" and "memory" keywords still classifies as `system_timeout`,
and a keyword-free message classifies as `agent_logic`. -/
theorem C5_witness :
    _detect_failure_mode
      { ty := "ValueError",
        msg := "Timeout and network connection failure, out of memory" } = .SYSTEM_TIMEOUT ∧
    _detect_failure_mode { ty := "Exception", msg := "bad step" } = .AGENT_LOGIC :=
  ⟨(C5_timeout_first_match.1 _ (Or.inr (by decide))).1,
   C5_timeout_first_match.2 _ (by decide) (by decide) (by decide) (by decide)
     (by decide) (by decide) (by decide) (by decide) (by decide) (by decide)
     (by decide) (by decide) (by decide) (by decide) (by decide)⟩

/-- C7 counterexample: with the policy `base_delay = 60, max_delay = 60,
multiplier = 2, jitter = 0.1` and the legal jitter draw `u = 1`,
`get_delay(0)` returns `66 > max_delay`, so the returned delay does not
always lie within `[0, maxDelay]`. -/
theorem C7_counterexample :
    -1 ≤ (1 : ℚ) ∧ (1 : ℚ) ≤ 1 ∧
    ExponentialBackoffPolicy.get_delay
        { base_delay := 60, max_delay := 60, multiplier := 2, jitter := 1/10 } 1 0 >
      (60 : ℚ) := by
  refine ⟨by norm_num, le_refl 1, ?_⟩
  norm_num [ExponentialBackoffPolicy.get_delay, ExponentialBackoffPolicy.raw_delay]

/-- C7 amended: for non-negative base delay and cap, multiplier at least 1,
non-negative jitter fraction and any jitter draw `u ∈ [-1, 1]`:
`get_delay` is always non-negative and at most `max_delay * (1 + jitter)`;
the pre-jitter delay is monotonically non-decreasing in the attempt number
and capped by `max_delay`; and with jitter 0 the returned delay itself is
monotonically non-decreasing and within `[0, max_delay]`. The claim's
`[0, maxDelay]` bound (and per-draw monotonicity) holds only without
jitter. -/
theorem C7_amended (p : ExponentialBackoffPolicy) (u : ℚ) (n : Nat)
    (hb : 0 ≤ p.base_delay) (hM : 0 ≤ p.max_delay) (hmul : 1 ≤ p.multiplier)
    (hj : 0 ≤ p.jitter) (_hu₁ : -1 ≤ u) (hu₂ : u ≤ 1) :
    0 ≤ p.get_delay u n ∧
    p.get_delay u n ≤ p.max_delay * (1 + p.jitter) ∧
    0 ≤ p.raw_delay n ∧
    p.raw_delay n ≤ p.max_delay ∧
    p.raw_delay n ≤ p.raw_delay (n + 1) ∧
    (p.jitter = 0 →
      p.get_delay u n ≤ p.max_delay ∧ p.get_delay u n ≤ p.get_delay u (n + 1)) := by
  have hmul0 : (0 : ℚ) ≤ p.multiplier := le_trans zero_le_one hmul
  have hd0 : 0 ≤ p.raw_delay n := by
    unfold ExponentialBackoffPolicy.raw_delay
    exact le_min (mul_nonneg hb (pow_nonneg hmul0 n)) hM
  have hdM : p.raw_delay n ≤ p.max_delay := min_le_right _ _
  have hmono : p.raw_delay n ≤ p.raw_delay (n + 1) := by
    unfold ExponentialBackoffPolicy.raw_delay
    refine min_le_min ?_ le_rfl
    have : p.multiplier ^ n ≤ p.multiplier ^ (n + 1) :=
      pow_le_pow_right₀ hmul (Nat.le_succ n)
    exact mul_le_mul_of_nonneg_left this hb
  refine ⟨?_, ?_, hd0, hdM, hmono, ?_⟩
  · exact le_max_left 0 _
  · unfold ExponentialBackoffPolicy.get_delay
    by_cases hpos : p.jitter > 0
    · have hju : p.raw_delay n * p.jitter * u ≤ p.raw_delay n * p.jitter := by
        have : p.raw_delay n * p.jitter * u ≤ p.raw_delay n * p.jitter * 1 :=
          mul_le_mul_of_nonneg_left hu₂ (mul_nonneg hd0 hj)
        simpa using this
      have hbound : p.raw_delay n + p.raw_delay n * p.jitter * u ≤
          p.max_delay * (1 + p.jitter) := by
        have h1 : p.raw_delay n + p.raw_delay n * p.jitter ≤
            p.max_delay * (1 + p.jitter) := by
          have := mul_le_mul_of_nonneg_right hdM
            (by linarith : (0 : ℚ) ≤ 1 + p.jitter)
          nlinarith [mul_le_mul_of_nonneg_right hdM hj]
        linarith
      simp only [if_pos hpos]
      exact max_le (by nlinarith) hbound
    · simp only [if_neg hpos]
      have : max 0 (p.raw_delay n) = p.raw_delay n := max_eq_right hd0
      rw [this]
      nlinarith
  · intro hz
    unfold ExponentialBackoffPolicy.get_delay
    have hnot : ¬ p.jitter > 0 := by rw [hz]; exact lt_irrefl 0
    simp only [if_neg hnot]
    rw [max_eq_right hd0, max_eq_right (le_trans hd0 hmono)]
    exact ⟨hdM, hmono⟩

/-- C7 witness: the amended bounds instantiated at the defaulted policy,
draw `u = 1/2` and attempt 0. -/
theorem C7_witness :
    0 ≤ ExponentialBackoffPolicy.get_delay {} (1/2) 0 ∧
    ExponentialBackoffPolicy.get_delay {} (1/2) 0 ≤
      (ExponentialBackoffPolicy.max_delay {}) * (1 + ExponentialBackoffPolicy.jitter {}) ∧
    0 ≤ ExponentialBackoffPolicy.raw_delay {} 0 ∧
    ExponentialBackoffPolicy.raw_delay {} 0 ≤ ExponentialBackoffPolicy.max_delay {} ∧
    ExponentialBackoffPolicy.raw_delay {} 0 ≤ ExponentialBackoffPolicy.raw_delay {} 1 ∧
    (ExponentialBackoffPolicy.jitter {} = 0 →
      ExponentialBackoffPolicy.get_delay {} (1/2) 0 ≤ ExponentialBackoffPolicy.max_delay {} ∧
      ExponentialBackoffPolicy.get_delay {} (1/2) 0 ≤
        ExponentialBackoffPolicy.get_delay {} (1/2) 1) :=
  C7_amended {} (1/2) 0 (by norm_num) (by norm_num) (by norm_num) (by norm_num)
    (by norm_num) (by norm_num)

/-- C6: if an attempt of the retry loop fails with an exception whose
detected failure mode is terminal, the executor raises the classified
orchestration error immediately: for every policy (so `should_retry` is
never consulted and any allow-list is irrelevant), for any number of
remaining attempts, with no sleeps performed and no dependence on the
operation's behaviour at later attempts; in particular a terminal failure
at attempt 0 makes `execute_with_retry` raise at once. -/
theorem C6_terminal_bypasses_retry :
    (∀ (T : Type) (policy : RetryPolicyIface) (stage opName : String)
       (op : Operation T) (attempt remaining : Nat) (last : Option FailureContext)
       (exc : Exc),
      op attempt = .error exc →
      (_detect_failure_mode exc).terminal = true →
      retryGo policy stage opName op attempt (remaining + 1) last =
        (.error (FailureContext.from_exception exc stage attempt opName).to_orchestration_error,
         []) ∧
      (∀ op₂ : Operation T, op₂ attempt = op attempt →
        retryGo policy stage opName op₂ attempt (remaining + 1) last =
          retryGo policy stage opName op attempt (remaining + 1) last)) ∧
    (∀ (T : Type) (policy : RetryPolicyIface) (stage opName : String)
       (op : Operation T) (exc : Exc),
      op 0 = .error exc →
      (_detect_failure_mode exc).terminal = true →
      execute_with_retry policy stage op opName =
        (.error (FailureContext.from_exception exc stage 0 opName).to_orchestration_error,
         [])) := by
  have key : ∀ (T : Type) (policy : RetryPolicyIface) (stage opName : String)
      (op : Operation T) (attempt remaining : Nat) (last : Option FailureContext)
      (exc : Exc),
      op attempt = .error exc →
      (_detect_failure_mode exc).terminal = true →
      retryGo policy stage opName op attempt (remaining + 1) last =
        (.error (FailureContext.from_exception exc stage attempt opName).to_orchestration_error,
         []) := by
    intro T policy stage opName op attempt remaining last exc hop hterm
    have hmode : (FailureContext.from_exception exc stage attempt opName).mode.terminal
        = true := by
      simp [FailureContext.from_exception, hterm]
    simp [retryGo, hop, hmode]
  refine ⟨?_, ?_⟩
  · intro T policy stage opName op attempt remaining last exc hop hterm
    refine ⟨key T policy stage opName op attempt remaining last exc hop hterm, ?_⟩
    intro op₂ h₂
    rw [key T policy stage opName op₂ attempt remaining last exc (h₂.trans hop) hterm,
      key T policy stage opName op attempt remaining last exc hop hterm]
  · intro T policy stage opName op exc hop hterm
    unfold execute_with_retry
    exact key T policy stage opName op 0 policy.get_max_attempts none exc hop hterm

/-- C6 witness: a policy whose allow-list marks every mode retryable and
which would allow three more attempts still fails immediately, with no
sleeps, on an out-of-memory exception (detected mode `system_oom`,
terminal). -/
theorem C6_witness :
    (fun _ : Nat => (.error { ty := "MemoryError", msg := "out of memory" }
        : Except Exc Nat)) 0 =
      .error { ty := "MemoryError", msg := "out of memory" } ∧
    (_detect_failure_mode { ty := "MemoryError", msg := "out of memory" }).terminal
      = true ∧
    execute_with_retry
        { should_retry := fun _ => true, get_delay := fun _ => 5, get_max_attempts := 3 }
        "tool_execution"
        (fun _ : Nat => (.error { ty := "MemoryError", msg := "out of memory" }
          : Except Exc Nat))
        "call_sales_tool" =
      (.error (FailureContext.from_exception
          { ty := "MemoryError", msg := "out of memory" } "tool_execution" 0
          "call_sales_tool").to_orchestration_error, []) :=
  ⟨rfl, by decide,
   C6_terminal_bypasses_retry.2 Nat
     { should_retry := fun _ => true, get_delay := fun _ => 5, get_max_attempts := 3 }
     "tool_execution" "call_sales_tool"
     (fun _ : Nat => (.error { ty := "MemoryError", msg := "out of memory" }
       : Except Exc Nat))
     { ty := "MemoryError", msg := "out of memory" } rfl (by decide)⟩

/-- C1: whenever the budget used so far plus the step's estimated cost
strictly exceeds the ceiling, the step's tool is never invoked (the
equation holds for every environment, hence for every tool
implementation), an outcome with status `budget_exceeded` is recorded for
that step, and the loop continues with the remaining steps from the state
that only gained that record. -/
theorem C1_budget_exceeded_skips (env : DemoEnv) (toolCtx : ToolCtx)
    (budgetLimit : ℚ) (st : ExecState) (step : PlanStep) (rest : List PlanStep)
    (h : st.budget_used.total + step.estimated_cost > budgetLimit) :
    (StepRecord.budgetExceeded step.index step.tool step.metadata.domain
        st.budget_used.total budgetLimit).status = "budget_exceeded" ∧
    execStep env toolCtx budgetLimit st step =
      .ok { st with results := st.results ++
              [.budgetExceeded step.index step.tool step.metadata.domain
                 st.budget_used.total budgetLimit] } ∧
    execSteps env toolCtx budgetLimit st (step :: rest) =
      execSteps env toolCtx budgetLimit
        { st with results := st.results ++
            [.budgetExceeded step.index step.tool step.metadata.domain
               st.budget_used.total budgetLimit] } rest := by
  have h1 : execStep env toolCtx budgetLimit st step =
      .ok { st with results := st.results ++
              [.budgetExceeded step.index step.tool step.metadata.domain
                 st.budget_used.total budgetLimit] } := by
    unfold execStep
    rw [if_pos h]
  refine ⟨rfl, h1, ?_⟩
  simp only [execSteps, h1]
  rfl

/-- C1 witness: with the ceiling 1/2 and a step of cost 1 from the empty
state, the step is skipped as `budget_exceeded` and the (empty) remainder
of the plan still runs. -/
theorem C1_witness :
    initState.budget_used.total + scoreStep.estimated_cost > (1/2 : ℚ) ∧
    execSteps (mkEnv echoTools) { trace_id := "trace-demo", profile := "demo" }
        (1/2) initState [scoreStep] =
      execSteps (mkEnv echoTools) { trace_id := "trace-demo", profile := "demo" }
        (1/2)
        { initState with results := initState.results ++
            [.budgetExceeded scoreStep.index scoreStep.tool
               scoreStep.metadata.domain initState.budget_used.total (1/2)] } [] :=
  ⟨by norm_num [initState, scoreStep],
   (C1_budget_exceeded_skips (mkEnv echoTools)
      { trace_id := "trace-demo", profile := "demo" } (1/2) initState scoreStep []
      (by norm_num [initState, scoreStep])).2.2⟩

/-- C10: the per-step loop is total for every plan whose ceiling is
positive (the 80 % check is well-defined on every step and a structured
result is always returned), while a plan with ceiling 0 whose next step
has estimated cost 0 makes the run raise `ZeroDivisionError` instead of
returning a result. -/
theorem C10_ceiling_totality :
    (∀ (env : DemoEnv) (toolCtx : ToolCtx) (budgetLimit : ℚ) (st : ExecState)
       (steps : List PlanStep), 0 < budgetLimit →
      ∃ st', execSteps env toolCtx budgetLimit st steps = .ok st') ∧
    (∀ (env : DemoEnv) (plan : Plan) (context : ExecutionContext),
      0 < plan.budget.call_ceiling →
      ∃ res, execute_plan_manual env plan context = .ok res) ∧
    execute_plan_manual (mkEnv echoTools) (mkPlan [zeroCostStep] 0) demoContext =
      .error "ZeroDivisionError" := by
  have hstep : ∀ (env : DemoEnv) (toolCtx : ToolCtx) (budgetLimit : ℚ)
      (st : ExecState) (step : PlanStep), 0 < budgetLimit →
      ∃ st', execStep env toolCtx budgetLimit st step = .ok st' := by
    intro env toolCtx budgetLimit st step hpos
    unfold execStep
    split
    · exact ⟨_, rfl⟩
    · split
      · next h0 => exact absurd h0 (ne_of_gt hpos)
      · dsimp only
        split
        · exact ⟨_, rfl⟩
        · split
          · exact ⟨_, rfl⟩
          · exact ⟨_, rfl⟩
  have hsteps : ∀ (env : DemoEnv) (toolCtx : ToolCtx) (budgetLimit : ℚ)
      (steps : List PlanStep) (st : ExecState), 0 < budgetLimit →
      ∃ st', execSteps env toolCtx budgetLimit st steps = .ok st' := by
    intro env toolCtx budgetLimit steps
    induction steps with
    | nil => exact fun st _ => ⟨st, rfl⟩
    | cons step rest ih =>
      intro st hpos
      obtain ⟨st₁, h1⟩ := hstep env toolCtx budgetLimit st step hpos
      obtain ⟨st₂, h2⟩ := ih st₁ hpos
      exact ⟨st₂, by simp only [execSteps, h1]; exact h2⟩
  refine ⟨fun env toolCtx budgetLimit st steps h =>
    hsteps env toolCtx budgetLimit steps st h, ?_, ?_⟩
  · intro env plan context hpos
    obtain ⟨st, h⟩ := hsteps env
      { trace_id := context.trace_id, profile := context.profile }
      plan.budget.call_ceiling plan.steps initState hpos
    refine ⟨⟨st.results.all (fun r => r.status = "success"), st.results,
      context.trace_id, st.budget_used, plan.budget.call_ceiling,
      decide (st.budget_used.total > plan.budget.call_ceiling),
      st.approval_requests, st.total_approval_time⟩, ?_⟩
    unfold execute_plan_manual
    simp only [h]
    rfl
  · norm_num [execute_plan_manual, execSteps, execStep, initState, zeroCostStep,
      mkPlan, Except.bind, bind]

/-- C10 witness: the totality half instantiated at a concrete positive
ceiling, both for the bare loop and for a whole one-step plan. -/
theorem C10_witness :
    (∃ st', execSteps (mkEnv echoTools) { trace_id := "trace-demo", profile := "demo" }
        1 initState [scoreStep] = .ok st') ∧
    (∃ res, execute_plan_manual (mkEnv echoTools) (mkPlan [scoreStep] 50) demoContext
        = .ok res) :=
  ⟨C10_ceiling_totality.1 (mkEnv echoTools)
      { trace_id := "trace-demo", profile := "demo" } 1 initState [scoreStep]
      (by norm_num),
   C10_ceiling_totality.2.1 (mkEnv echoTools) (mkPlan [scoreStep] 50) demoContext
      (by norm_num [mkPlan])⟩

/-- C2: each loop iteration that returns (rather than raising the
zero-ceiling division error) appends exactly one outcome record, whose
status is one of `success`, `error`, `budget_exceeded`,
`approval_denied`; the budget total and the per-domain and per-tool
breakdowns are increased by the step's estimated cost exactly when that
record's status is `success`, and are unchanged for every other status. -/
theorem C2_budget_charged_iff_success (env : DemoEnv) (toolCtx : ToolCtx)
    (budgetLimit : ℚ) (st st' : ExecState) (step : PlanStep)
    (h : execStep env toolCtx budgetLimit st step = .ok st') :
    ∃ rec : StepRecord,
      st'.results = st.results ++ [rec] ∧
      (rec.status = "success" →
        st'.budget_used.total = st.budget_used.total + step.estimated_cost ∧
        st'.budget_used.by_domain =
          bump st.budget_used.by_domain step.metadata.domain step.estimated_cost ∧
        st'.budget_used.by_tool =
          bump st.budget_used.by_tool step.tool step.estimated_cost) ∧
      (rec.status ≠ "success" →
        st'.budget_used.total = st.budget_used.total ∧
        st'.budget_used.by_domain = st.budget_used.by_domain ∧
        st'.budget_used.by_tool = st.budget_used.by_tool) ∧
      (rec.status = "success" ∨ rec.status = "error" ∨
       rec.status = "budget_exceeded" ∨ rec.status = "approval_denied") := by
  obtain ⟨hres, hout, hbud⟩ := approvalPhase_fields env st step
  unfold execStep at h
  split at h
  · injection h with h
    subst h
    refine ⟨_, rfl, ?_, fun _ => ⟨rfl, rfl, rfl⟩, ?_⟩
    · intro hs; simp [StepRecord.status] at hs
    · simp [StepRecord.status]
  · split at h
    · simp at h
    · dsimp only at h
      split at h
      · injection h with h
        subst h
        refine ⟨.approvalDenied step.index step.tool step.metadata.domain
          ((Option.map (fun resp => resp.reason) (approvalPhase env st step).2).getD
            "Approval not granted"), ?_, ?_, ?_, ?_⟩
        · simp only [hres]
        · intro hs; simp [StepRecord.status] at hs
        · intro _
          refine ⟨?_, ?_, ?_⟩ <;> simp only [hbud]
        · simp [StepRecord.status]
      · split at h
        · rename_i e heq
          injection h with h
          subst h
          refine ⟨.error step.index step.tool e.msg, ?_, ?_, ?_, ?_⟩
          · simp only [hres]
          · intro hs; simp [StepRecord.status] at hs
          · intro _
            refine ⟨?_, ?_, ?_⟩ <;> simp only [hbud]
          · simp [StepRecord.status]
        · rename_i output so2 heq
          injection h with h
          subst h
          refine ⟨.success step.index step.tool step.metadata.domain output
            (requires_approval step)
            ((Option.map (fun resp => resp.wait_time) (approvalPhase env st step).2).getD 0),
            ?_, ?_, ?_, ?_⟩
          · simp only [hres]
          · intro _
            refine ⟨?_, ?_, ?_⟩ <;> simp only [hbud]
          · intro hs; simp [StepRecord.status] at hs
          · simp [StepRecord.status]

/-- The approval phase of a step not requiring approval is the identity. -/
theorem approvalPhase_none (env : DemoEnv) (st : ExecState) (step : PlanStep)
    (hra : requires_approval step = false) :
    approvalPhase env st step = (st, none) := by
  unfold approvalPhase
  rw [hra]
  simp

/-- Evaluation rule for one in-budget, no-approval step whose dispatch
returns an output. -/
theorem execStep_dispatch_ok (env : DemoEnv) (toolCtx : ToolCtx)
    (budgetLimit : ℚ) (st : ExecState) (step : PlanStep) (out : Dict)
    (so2 : Option Dict)
    (hb : ¬(st.budget_used.total + step.estimated_cost > budgetLimit))
    (h0 : budgetLimit ≠ 0)
    (hra : requires_approval step = false)
    (hd : dispatch env.tools toolCtx st.stepOutputs2 step.tool step.input =
      .ok (out, so2)) :
    execStep env toolCtx budgetLimit st step =
      .ok { st with
            stepOutputs2 := so2
            results := st.results ++
              [.success step.index step.tool step.metadata.domain out false 0]
            budget_used :=
              { total := st.budget_used.total + step.estimated_cost
                by_domain := bump st.budget_used.by_domain step.metadata.domain
                  step.estimated_cost
                by_tool := bump st.budget_used.by_tool step.tool
                  step.estimated_cost } } := by
  unfold execStep
  rw [if_neg hb, if_neg h0]
  dsimp only
  rw [approvalPhase_none env st step hra]
  dsimp only
  rw [hd, hra]
  simp

/-- Evaluation rule for one in-budget, no-approval step whose dispatch
raises. -/
theorem execStep_dispatch_error (env : DemoEnv) (toolCtx : ToolCtx)
    (budgetLimit : ℚ) (st : ExecState) (step : PlanStep) (e : Exc)
    (hb : ¬(st.budget_used.total + step.estimated_cost > budgetLimit))
    (h0 : budgetLimit ≠ 0)
    (hra : requires_approval step = false)
    (hd : dispatch env.tools toolCtx st.stepOutputs2 step.tool step.input =
      .error e) :
    execStep env toolCtx budgetLimit st step =
      .ok { st with
            results := st.results ++ [.error step.index step.tool e.msg] } := by
  unfold execStep
  rw [if_neg hb, if_neg h0]
  dsimp only
  rw [approvalPhase_none env st step hra]
  dsimp only
  rw [hd]
  simp

/-- C2 witness: a concrete successful step (the unknown-tool branch records
status `success` with an error payload) of cost 1 charges the budget total
and both breakdowns; the property instantiated there. -/
theorem C2_witness :
    execStep (mkEnv echoTools) { trace_id := "trace-demo", profile := "demo" }
        50 initState unknownToolStep =
      .ok { initState with
            stepOutputs2 := none
            results := initState.results ++
              [.success 1 "mystery_tool" "ops"
                [("error", .vstr "Unknown tool: mystery_tool")] false 0]
            budget_used :=
              { total := initState.budget_used.total + 1
                by_domain := bump initState.budget_used.by_domain "ops" 1
                by_tool := bump initState.budget_used.by_tool "mystery_tool" 1 } } ∧
    (∃ rec : StepRecord,
      ({ initState with
         stepOutputs2 := none
         results := initState.results ++
           [.success 1 "mystery_tool" "ops"
             [("error", .vstr "Unknown tool: mystery_tool")] false 0]
         budget_used :=
           { total := initState.budget_used.total + 1
             by_domain := bump initState.budget_used.by_domain "ops" 1
             by_tool := bump initState.budget_used.by_tool "mystery_tool" 1 } }
         : ExecState).results = initState.results ++ [rec] ∧
      (rec.status = "success" ∨ rec.status = "error" ∨
       rec.status = "budget_exceeded" ∨ rec.status = "approval_denied")) := by
  have hrun : execStep (mkEnv echoTools)
      { trace_id := "trace-demo", profile := "demo" } 50 initState unknownToolStep =
      .ok { initState with
            stepOutputs2 := none
            results := initState.results ++
              [.success 1 "mystery_tool" "ops"
                [("error", .vstr "Unknown tool: mystery_tool")] false 0]
            budget_used :=
              { total := initState.budget_used.total + 1
                by_domain := bump initState.budget_used.by_domain "ops" 1
                by_tool := bump initState.budget_used.by_tool "mystery_tool" 1 } } :=
    execStep_dispatch_ok (mkEnv echoTools)
      { trace_id := "trace-demo", profile := "demo" } 50 initState unknownToolStep
      [("error", .vstr "Unknown tool: mystery_tool")] none
      (by norm_num [initState, unknownToolStep])
      (by norm_num)
      (by simp [requires_approval, unknownToolStep])
      (by simp [dispatch, mkEnv, echoTools, unknownToolStep, initState])
  refine ⟨hrun, ?_⟩
  obtain ⟨rec, h1, _h2, _h3, h4⟩ := C2_budget_charged_iff_success (mkEnv echoTools)
    { trace_id := "trace-demo", profile := "demo" } 50 initState _ unknownToolStep hrun
  exact ⟨rec, h1, h4⟩

/-- Every approval response created by the demo approval phase is
auto-approved, so the denial test is never satisfied. -/
theorem approvalPhase_approved (env : DemoEnv) (st : ExecState) (step : PlanStep) :
    Option.any (fun resp => resp.status != "approved") (approvalPhase env st step).2
      = false := by
  unfold approvalPhase approveStep
  split <;> simp

/-- C3 (amended): if a tool invocation raises, the executor catches it,
records an outcome with status `error` carrying only the exception's raw
message (step id and tool beside it; no failure-mode classification is
recorded), leaves the budget unchanged, continues with the remaining
steps, and the final structured result's success flag is true exactly when
every recorded outcome has status `success`. -/
theorem C3_error_graceful_continuation :
    (∀ (env : DemoEnv) (toolCtx : ToolCtx) (budgetLimit : ℚ) (st : ExecState)
       (step : PlanStep) (rest : List PlanStep) (e : Exc),
      ¬(st.budget_used.total + step.estimated_cost > budgetLimit) →
      budgetLimit ≠ 0 →
      dispatch env.tools toolCtx st.stepOutputs2 step.tool step.input = .error e →
      execStep env toolCtx budgetLimit st step =
        .ok { (approvalPhase env st step).1 with
              results := st.results ++ [.error step.index step.tool e.msg] } ∧
      (approvalPhase env st step).1.budget_used = st.budget_used ∧
      execSteps env toolCtx budgetLimit st (step :: rest) =
        execSteps env toolCtx budgetLimit
          { (approvalPhase env st step).1 with
            results := st.results ++ [.error step.index step.tool e.msg] } rest) ∧
    (∀ (env : DemoEnv) (plan : Plan) (context : ExecutionContext)
       (res : FinalResult),
      execute_plan_manual env plan context = .ok res →
      (res.success = true ↔ ∀ r ∈ res.results, r.status = "success")) := by
  constructor
  · intro env toolCtx budgetLimit st step rest e hb h0 hd
    obtain ⟨hres, hout, hbud⟩ := approvalPhase_fields env st step
    have h1 : execStep env toolCtx budgetLimit st step =
        .ok { (approvalPhase env st step).1 with
              results := st.results ++ [.error step.index step.tool e.msg] } := by
      unfold execStep
      rw [if_neg hb, if_neg h0]
      dsimp only
      rw [if_neg (by simp [approvalPhase_approved])]
      rw [hout, hd]
      dsimp only
      rw [hres]
    refine ⟨h1, hbud, ?_⟩
    simp only [execSteps, h1]
    rfl
  · intro env plan context res h
    unfold execute_plan_manual at h
    dsimp only at h
    cases hst : execSteps env
        { trace_id := context.trace_id, profile := context.profile }
        plan.budget.call_ceiling initState plan.steps with
    | error s =>
        rw [hst] at h
        have h2 : (Except.error s : Except String FinalResult) = .ok res := h
        simp at h2
    | ok st =>
        rw [hst] at h
        have h2 : (Except.ok
            ({ success := st.results.all (fun r => r.status = "success")
               results := st.results
               trace_id := context.trace_id
               budget_utilization := st.budget_used
               budget_limit := plan.budget.call_ceiling
               budget_exceeded := decide
                 (st.budget_used.total > plan.budget.call_ceiling)
               approval_requests := st.approval_requests
               total_approval_time := st.total_approval_time } : FinalResult)
            : Except String FinalResult) = .ok res := h
        injection h2 with h2
        subst h2
        simp [List.all_eq_true]

/-- Evaluation of a whole one-step run whose only tool always raises: the
result is structured (returned, not raised), its single outcome is an
`error` record carrying only the raw exception message, and its success
flag is false. -/
theorem run_single_throwing (exc : Exc) :
    execute_plan_manual (mkEnv (throwingTools exc)) (mkPlan [scoreStep] 50)
        demoContext = .ok (throwResult exc.msg) := by
  have hd : dispatch (mkEnv (throwingTools exc)).tools
      { trace_id := "trace-demo", profile := "demo" } initState.stepOutputs2
      scoreStep.tool scoreStep.input = .error exc := by
    simp [dispatch, mkEnv, throwingTools, scoreStep, initState, Except.map]
  have h1 := execStep_dispatch_error (mkEnv (throwingTools exc))
    { trace_id := "trace-demo", profile := "demo" } 50 initState scoreStep exc
    (by norm_num [initState, scoreStep]) (by norm_num)
    (by simp [requires_approval, scoreStep]) hd
  have h2 : execSteps (mkEnv (throwingTools exc))
      { trace_id := "trace-demo", profile := "demo" } 50 initState [scoreStep] =
      .ok { results := [.error 1 "score_account_fit" exc.msg]
            stepOutputs2 := none
            budget_used := { total := 0, by_domain := [], by_tool := [] }
            approval_requests := []
            total_approval_time := 0 } := by
    simp only [execSteps, h1]
    rfl
  unfold execute_plan_manual
  dsimp only [mkPlan, demoContext]
  rw [h2]
  rfl

/-- C3 witness: the error-continuation equation and the success-flag
characterization instantiated at a concrete one-step run whose tool
raises. -/
theorem C3_witness :
    execStep (mkEnv (throwingTools { ty := "Exception", msg := "tool blew up" }))
        { trace_id := "trace-demo", profile := "demo" } 50 initState scoreStep =
      .ok { (approvalPhase (mkEnv (throwingTools
              { ty := "Exception", msg := "tool blew up" })) initState scoreStep).1 with
            results := initState.results ++
              [.error scoreStep.index scoreStep.tool "tool blew up"] } ∧
    ((throwResult "tool blew up").success = true ↔
      ∀ r ∈ (throwResult "tool blew up").results, r.status = "success") :=
  ⟨(C3_error_graceful_continuation.1
      (mkEnv (throwingTools { ty := "Exception", msg := "tool blew up" }))
      { trace_id := "trace-demo", profile := "demo" } 50 initState scoreStep []
      { ty := "Exception", msg := "tool blew up" }
      (by norm_num [initState, scoreStep]) (by norm_num)
      (by simp [dispatch, mkEnv, throwingTools, scoreStep, initState, Except.map])).1,
   C3_error_graceful_continuation.2
     (mkEnv (throwingTools { ty := "Exception", msg := "tool blew up" }))
     (mkPlan [scoreStep] 50) demoContext _
     (run_single_throwing { ty := "Exception", msg := "tool blew up" })⟩

/-- C3 counterexample: the recorded outcome does not carry the Failure
Taxonomy classification. Two exceptions with the same message but
different type names classify differently (`system_timeout` versus
`system_network`), yet the two runs produce identical structured results
record for record — so no function of the recorded outcome can recover
the classification the claim says the outcome carries. -/
theorem C3_counterexample :
    _detect_failure_mode { ty := "TimeoutError", msg := "connection refused" } ≠
      _detect_failure_mode { ty := "ValueError", msg := "connection refused" } ∧
    execute_plan_manual
        (mkEnv (throwingTools { ty := "TimeoutError", msg := "connection refused" }))
        (mkPlan [scoreStep] 50) demoContext =
      execute_plan_manual
        (mkEnv (throwingTools { ty := "ValueError", msg := "connection refused" }))
        (mkPlan [scoreStep] 50) demoContext := by
  refine ⟨by decide, ?_⟩
  rw [run_single_throwing { ty := "TimeoutError", msg := "connection refused" },
    run_single_throwing { ty := "ValueError", msg := "connection refused" }]

/-- C4 (amended): the coordinator does splice the draft step's produced
message body and subject into the quality-assessment step's input at
execution time, but the substitution is keyed on the literal tool names
(`draft_outbound_message` stores its output in the fixed slot 2,
`assess_message_quality` reads it back) and not on the step's `depends_on`
metadata: the executor's behaviour on a step is identical for every value
of `depends_on`. -/
theorem C4_splice_keyed_on_tool_names :
    (∀ (tools : Tools) (toolCtx : ToolCtx) (out input : Dict) (m s : Value),
      dictGet out "message_draft" = some m →
      dictGet out "subject" = some s →
      dispatch tools toolCtx (some out) "assess_message_quality" input =
        (tools.assess_message_quality
            (dictSet (dictSet input "message" m) "subject" s) toolCtx).map
          (fun o => (o, some out))) ∧
    (∀ (tools : Tools) (toolCtx : ToolCtx) (so2 : Option Dict) (input : Dict),
      dispatch tools toolCtx so2 "draft_outbound_message" input =
        (tools.draft_outbound_message input toolCtx).map (fun o => (o, some o))) ∧
    (∀ (env : DemoEnv) (toolCtx : ToolCtx) (budgetLimit : ℚ) (st : ExecState)
       (step : PlanStep) (d₁ d₂ : Option Nat),
      execStep env toolCtx budgetLimit st
          { step with metadata := { step.metadata with depends_on := d₁ } } =
        execStep env toolCtx budgetLimit st
          { step with metadata := { step.metadata with depends_on := d₂ } }) := by
  refine ⟨?_, ?_, ?_⟩
  · intro tools toolCtx out input m s hm hs
    unfold dispatch
    rw [if_neg (by decide), if_neg (by decide), if_pos rfl]
    unfold dictGet at hm hs
    unfold dictGetExc
    dsimp only
    rw [hm, hs]
    rfl
  · intro tools toolCtx so2 input
    unfold dispatch
    rw [if_neg (by decide), if_pos rfl]
  · intro env toolCtx budgetLimit st step d₁ d₂
    rfl

/-- C4 witness: with a stored draft output carrying a body and subject, the
quality-assessment dispatch invokes the tool on the input with both
placeholders overwritten by the stored values. -/
theorem C4_witness :
    dictGet [("message_draft", Value.vstr "draft body"),
             ("subject", Value.vstr "draft subject")] "message_draft" =
      some (Value.vstr "draft body") ∧
    dictGet [("message_draft", Value.vstr "draft body"),
             ("subject", Value.vstr "draft subject")] "subject" =
      some (Value.vstr "draft subject") ∧
    dispatch echoTools { trace_id := "trace-demo", profile := "demo" }
        (some [("message_draft", Value.vstr "draft body"),
               ("subject", Value.vstr "draft subject")])
        "assess_message_quality" [("message", .vstr ""), ("subject", .vstr "")] =
      (echoTools.assess_message_quality
          (dictSet (dictSet [("message", .vstr ""), ("subject", .vstr "")]
            "message" (Value.vstr "draft body")) "subject" (Value.vstr "draft subject"))
          { trace_id := "trace-demo", profile := "demo" }).map
        (fun o => (o, some [("message_draft", Value.vstr "draft body"),
                            ("subject", Value.vstr "draft subject")])) :=
  ⟨rfl, rfl,
   C4_splice_keyed_on_tool_names.1 echoTools
     { trace_id := "trace-demo", profile := "demo" }
     [("message_draft", Value.vstr "draft body"),
      ("subject", Value.vstr "draft subject")]
     [("message", .vstr ""), ("subject", .vstr "")]
     (Value.vstr "draft body") (Value.vstr "draft subject") rfl rfl⟩

/-- C4 counterexample: a two-step plan whose second step carries
`depends_on = 1` and a placeholder message. Step 1's recorded output is
`[("x", "v")]`, but the quality step (whose tool echoes its resolved
input) is invoked with the untouched placeholder: no prior-step output is
spliced in, because the executor's substitution is keyed on the tool names
and the fixed slot 2, not on `depends_on`. -/
theorem C4_counterexample :
    (mkPlan [scoreStep, assessStep] 50).steps.map (fun s => s.metadata.depends_on)
      = [none, some 1] ∧
    (execute_plan_manual (mkEnv echoTools) (mkPlan [scoreStep, assessStep] 50)
        demoContext).map (fun r => r.results) =
      .ok [.success 1 "score_account_fit" "intelligence" [("x", .vstr "v")] false 0,
           .success 2 "assess_message_quality" "engagement"
             [("message", .vstr "placeholder")] false 0] ∧
    dictGet [("x", Value.vstr "v")] "message" = none ∧
    Value.vstr "placeholder" ≠ Value.vstr "v" := by
  have h1 : execStep (mkEnv echoTools)
      { trace_id := "trace-demo", profile := "demo" } 50 initState scoreStep =
      .ok { results := [.success 1 "score_account_fit" "intelligence"
              [("x", .vstr "v")] false 0]
            stepOutputs2 := none
            budget_used := { total := 1
                             by_domain := [("intelligence", 1)]
                             by_tool := [("score_account_fit", 1)] }
            approval_requests := []
            total_approval_time := 0 } := by
    rw [execStep_dispatch_ok (mkEnv echoTools)
      { trace_id := "trace-demo", profile := "demo" } 50 initState scoreStep
      [("x", .vstr "v")] none
      (by norm_num [initState, scoreStep]) (by norm_num)
      (by simp [requires_approval, scoreStep])
      (by simp [dispatch, mkEnv, echoTools, scoreStep, initState, Except.map])]
    norm_num [initState, scoreStep, bump, List.lookup]
  have h2 : execStep (mkEnv echoTools)
      { trace_id := "trace-demo", profile := "demo" } 50
      { results := [.success 1 "score_account_fit" "intelligence"
          [("x", .vstr "v")] false 0]
        stepOutputs2 := none
        budget_used := { total := 1
                         by_domain := [("intelligence", 1)]
                         by_tool := [("score_account_fit", 1)] }
        approval_requests := []
        total_approval_time := 0 } assessStep =
      .ok { results := [.success 1 "score_account_fit" "intelligence"
              [("x", .vstr "v")] false 0,
            .success 2 "assess_message_quality" "engagement"
              [("message", .vstr "placeholder")] false 0]
            stepOutputs2 := none
            budget_used := { total := 2
                             by_domain := [("intelligence", 1), ("engagement", 1)]
                             by_tool := [("score_account_fit", 1),
                                         ("assess_message_quality", 1)] }
            approval_requests := []
            total_approval_time := 0 } := by
    rw [execStep_dispatch_ok (mkEnv echoTools)
      { trace_id := "trace-demo", profile := "demo" } 50 _ assessStep
      [("message", .vstr "placeholder")] none
      (by norm_num [assessStep]) (by norm_num)
      (by simp [requires_approval, assessStep])
      (by simp [dispatch, mkEnv, echoTools, assessStep, Except.map])]
    have l1 : List.lookup "engagement" [("intelligence", (1 : ℚ))] = none := rfl
    have l2 : List.lookup "assess_message_quality"
        [("score_account_fit", (1 : ℚ))] = none := rfl
    norm_num [assessStep, bump, l1, l2]
  have h3 : execSteps (mkEnv echoTools)
      { trace_id := "trace-demo", profile := "demo" } 50 initState
      [scoreStep, assessStep] =
      .ok { results := [.success 1 "score_account_fit" "intelligence"
              [("x", .vstr "v")] false 0,
            .success 2 "assess_message_quality" "engagement"
              [("message", .vstr "placeholder")] false 0]
            stepOutputs2 := none
            budget_used := { total := 2
                             by_domain := [("intelligence", 1), ("engagement", 1)]
                             by_tool := [("score_account_fit", 1),
                                         ("assess_message_quality", 1)] }
            approval_requests := []
            total_approval_time := 0 } := by
    simp only [execSteps, bind, Except.bind, h1, h2]
  refine ⟨rfl, ?_, rfl, by simp⟩
  unfold execute_plan_manual
  dsimp only [mkPlan, demoContext]
  rw [h3]
  rfl

end Cuga
